import Mathlib

set_option maxRecDepth 100000

/-!
Verification development for the simulation core of the Cyber Defender
platformer (src/App.tsx).  The source file contains two near-duplicate
variants of the game loop; we embed the first variant (lines 1-730)
essentially completely, and the collision passes and camera update of
the second variant (lines 762-1501) where the claims refer to them.

Modelling conventions:
* JS numbers are embedded as rationals (ℚ); all constants are exact.
* Within one animation-frame callback the source issues functional state
  updates (`setX(f)`) that compose in program order, while plain reads of
  the captured state constants (`enemies`, `projectiles`, `level`,
  `lives`, `player`, `cameraX`) always see the values from the start of
  the tick (they are `const` bindings that the setters never mutate).
  The tick function below therefore threads "pending" values through the
  phases in program order, and passes the tick-start snapshot to every
  phase that reads the captured constants.  The `level` array is mutated
  in place by the source, so it is threaded sequentially.
* `Math.random()` draws (power-up selection, fresh projectile ids) are
  supplied as explicit inputs of the tick.
* Purely cosmetic state (particles, the mentor-message text and its
  wall-clock dismiss timer) is omitted: per the specification it has no
  gameplay effect.
-/

namespace CyberDefense

/-- Axis-aligned bounding box, `{x, y, width, height}` as in the source. -/
structure Rect where
  x : ℚ
  y : ℚ
  width : ℚ
  height : ℚ
deriving DecidableEq, Repr

/-- The shared AABB overlap test `checkCollision` (strict inequalities):
`a.x < b.x + b.width && a.x + a.width > b.x && a.y < b.y + b.height && a.y + a.height > b.y`. -/
def checkCollision (a b : Rect) : Bool :=
  decide (a.x < b.x + b.width) && decide (a.x + a.width > b.x) &&
  decide (a.y < b.y + b.height) && decide (a.y + a.height > b.y)

namespace VA

/-- Level entity kinds of the first variant. -/
inductive EType
  | platform
  | powerUpBox
  | firewall
  | console
  | log
  | goal
deriving DecidableEq, Repr

/-- The `LevelEntityObject` record of the first variant. -/
structure Ent where
  id : ℕ
  type : EType
  x : ℚ
  y : ℚ
  width : ℚ
  height : ℚ
  hit : Bool := false
  linkedElementId : Option ℕ := none
  active : Bool := false
  collected : Bool := false
deriving DecidableEq, Repr

/-- Facing directions (players use only left/right; the boss also up/down). -/
inductive Dir
  | left
  | right
  | up
  | down
deriving DecidableEq, Repr

/-- Enemy kinds: `'Mini-Virus' | 'Spam-bot' | 'The Adware King'`. -/
inductive EKind
  | miniVirus
  | spamBot
  | adwareKing
deriving DecidableEq, Repr

/-- The `EnemyObject` record of the first variant.  `health` is `Option ℤ` because the
source distinguishes an absent field (`e.health ?? 1`) from health 0. -/
structure Enemy where
  id : ℕ
  type : EKind
  x : ℚ
  y : ℚ
  width : ℚ
  height : ℚ
  patrolStart : ℚ
  patrolEnd : ℚ
  vx : ℚ
  direction : Dir
  shootCooldown : ℤ := 0
  health : Option ℤ := none
deriving DecidableEq, Repr

/-- Projectile owner faction. -/
inductive POwner
  | player
  | enemy
deriving DecidableEq, Repr

/-- The `Projectile` record of the first variant (only `x` advances each tick). -/
structure Proj where
  id : ℕ
  x : ℚ
  y : ℚ
  vx : ℚ
  owner : POwner
deriving DecidableEq, Repr

/-- The `PlayerState` record of the first variant. -/
structure Player where
  x : ℚ
  y : ℚ
  vx : ℚ
  vy : ℚ
  onGround : Bool
  direction : Dir
  hasWeapon : Bool
  hasShield : Bool
  isInvincible : Bool
  invincibleTimer : ℤ
deriving DecidableEq, Repr

/-- Game states of the first variant. -/
inductive GState
  | start
  | playing
  | paused
  | win
  | lose
deriving DecidableEq, Repr

/-- Power-up effects drawn by the box trigger. -/
inductive PChoice
  | weapon
  | shield
  | invincibility
  | life
deriving DecidableEq, Repr

/-- Per-tick inputs: held keys, the `Math.random()` power-up draw for each
box id, and a seed for fresh projectile ids. -/
structure TickIn where
  left : Bool
  right : Bool
  up : Bool
  e : Bool
  rand : ℕ → PChoice
  idSeed : ℕ

def playerRect (p : Player) : Rect := ⟨p.x, p.y, 32, 48⟩

def playerHead (p : Player) : Rect := ⟨p.x, p.y - 1, 32, 1⟩

def projRect (pr : Proj) : Rect := ⟨pr.x, pr.y, 10, 10⟩

def enemyRect (e : Enemy) : Rect := ⟨e.x, e.y, e.width, e.height⟩

def entRect (ent : Ent) : Rect := ⟨ent.x, ent.y, ent.width, ent.height⟩

/-- Accumulator of the per-entity collision loop inside the player phase:
the corrected proposed position, vertical velocity and grounded flag. -/
structure ResAcc where
  newX : ℚ
  newY : ℚ
  vy : ℚ
  onGround : Bool
deriving DecidableEq, Repr

/-- One iteration of `level.forEach` in the collision section of the player
update (src/App.tsx lines 391-417): skip non-collidable entities, then an
exclusive if-else chain of landing, head-bump, left push, right push, each
tested against the previous position `(x, y)` and the current corrected
proposed position. -/
def resolveEntity (x y : ℚ) (acc : ResAcc) (ent : Ent) : ResAcc :=
  if ent.type ≠ EType.platform ∧ ent.type ≠ EType.firewall then acc
  else if ent.type = EType.firewall ∧ ent.active = false then acc
  else if checkCollision ⟨acc.newX, acc.newY, 32, 48⟩ (entRect ent) = true then
    if y + 48 ≤ ent.y ∧ acc.newY + 48 > ent.y then
      { acc with newY := ent.y - 48, vy := 0, onGround := true }
    else if y ≥ ent.y + ent.height ∧ acc.newY < ent.y + ent.height then
      { acc with newY := ent.y + ent.height, vy := 0 }
    else if x + 32 ≤ ent.x ∧ acc.newX + 32 > ent.x then
      { acc with newX := ent.x - 32 }
    else if x ≥ ent.x + ent.width ∧ acc.newX < ent.x + ent.width then
      { acc with newX := ent.x + ent.width }
    else acc
  else acc

/-- The whole collision loop over the level list. -/
def resolveLevel (lvl : List Ent) (x y nX nY vy : ℚ) : ResAcc :=
  lvl.foldl (resolveEntity x y) ⟨nX, nY, vy, false⟩

/-- Result of the first `setPlayer` phase: updated player, lives delta and
whether the lose state was requested. -/
structure P1Out where
  player : Player
  dLives : ℤ
  lose : Bool
deriving Repr

/-- The first `setPlayer` updater (movement, jumping, gravity, invincibility
timer, collision with the level, out-of-bounds respawn).  `livesSnap` is the
tick-start `lives` value read by the closure. -/
def playerPhase1 (inp : TickIn) (lvl : List Ent) (livesSnap : ℤ) (p : Player) : P1Out :=
  let vx : ℚ := if inp.right then 4 else if inp.left then -4 else 0
  let dir : Dir := if inp.right then Dir.right else if inp.left then Dir.left else p.direction
  let vy0 : ℚ := if inp.up ∧ p.onGround = true then -12 else p.vy
  let vy1 : ℚ := vy0 + 3/5
  let timer : ℤ := if p.isInvincible then p.invincibleTimer - 1 else p.invincibleTimer
  let inv : Bool := if p.isInvincible ∧ timer ≤ 0 then false else p.isInvincible
  let nX : ℚ := p.x + vx
  let nY : ℚ := p.y + vy1
  let r := resolveLevel lvl p.x p.y nX nY vy1
  if r.newY > 600 + 100 then
    if livesSnap - 1 ≤ 0 then
      { player := { p with
          x := r.newX, y := r.newY, vx := vx, vy := r.vy,
          onGround := r.onGround, direction := dir,
          isInvincible := inv, invincibleTimer := timer },
        dLives := -1, lose := true }
    else
      { player := { p with x := 50, y := 450, vx := 0, vy := 0 },
        dLives := -1, lose := false }
  else
    { player := { p with
        x := r.newX, y := r.newY, vx := vx, vy := r.vy,
        onGround := r.onGround, direction := dir,
        isInvincible := inv, invincibleTimer := timer },
      dLives := 0, lose := false }

/-- Whether the boss-arena firewall (id 999) is still active:
`level.find(l => l.id === 999)?.active`. -/
def wall999Active (lvl : List Ent) : Bool :=
  match lvl.find? (fun l => decide (l.id = 999)) with
  | some f => f.active
  | none => false

/-- Per-enemy movement/shooting of the enemy map (src/App.tsx lines 433-462).
`snapX` is the tick-start player x; `idA`, `idB` are the fresh ids for the
projectiles this enemy may spawn.  Returns the updated enemy and the spawned
projectiles in order. -/
def enemyUpd (snapX : ℚ) (lvl : List Ent) (e : Enemy) (idA idB : ℕ) :
    Enemy × List Proj :=
  match e.type with
  | EKind.miniVirus =>
    let x1 := e.x + e.vx
    let s1 : ℚ × ℚ × Dir :=
      if x1 < e.patrolStart then (e.patrolStart, -e.vx, Dir.right) else (x1, e.vx, e.direction)
    let s2 : ℚ × ℚ × Dir :=
      if s1.1 + e.width > e.patrolEnd then (e.patrolEnd - e.width, -s1.2.1, Dir.left) else s1
    ({ e with x := s2.1, vx := s2.2.1, direction := s2.2.2 }, [])
  | EKind.spamBot =>
    let dist := |snapX - e.x|
    let fire : Bool := decide (dist < 400) && decide (e.shootCooldown ≤ 0)
    let sp : List Proj :=
      if fire then [⟨idA, e.x, e.y + 20, if snapX < e.x then -5 else 5, POwner.enemy⟩] else []
    let c1 : ℤ := if fire then 120 else e.shootCooldown
    let c2 : ℤ := if c1 > 0 then c1 - 1 else c1
    ({ e with shootCooldown := c2 }, sp)
  | EKind.adwareKing =>
    if snapX > 4200 ∧ wall999Active lvl = true then
      let y1 : ℚ := if e.direction = Dir.down then e.y + 1 else e.y - 1
      let d1 : Dir := if y1 < e.patrolStart then Dir.down else e.direction
      let d2 : Dir := if y1 > e.patrolEnd then Dir.up else d1
      let fire : Bool := decide (e.shootCooldown ≤ 0)
      let sp : List Proj :=
        if fire then
          [⟨idA, e.x, e.y + 50, -8, POwner.enemy⟩, ⟨idB, e.x, e.y + 50, -6, POwner.enemy⟩]
        else []
      let c1 : ℤ := if fire then 90 else e.shootCooldown
      let c2 : ℤ := if c1 > 0 then c1 - 1 else c1
      ({ e with y := y1, direction := d2, shootCooldown := c2 }, sp)
    else (e, [])

/-- Result of the enemy phase: moved enemies after the health filter, plus
the projectiles spawned during the phase. -/
structure EnOut where
  enemies : List Enemy
  spawned : List Proj
deriving Repr

/-- The enemy update phase: `prevEnemies.map(...).filter(e => (e.health ?? 1) > 0)`
together with the projectile spawns it issues. -/
def enemyPhase (snapX : ℚ) (lvl : List Ent) (es : List Enemy) (seed : ℕ) : EnOut :=
  let r := es.foldl
    (fun (acc : List Enemy × List Proj × ℕ) e =>
      let u := enemyUpd snapX lvl e acc.2.2 (acc.2.2 + 1)
      (acc.1 ++ [u.1], acc.2.1 ++ u.2, acc.2.2 + u.2.length))
    ([], [], seed)
  { enemies := r.1.filter (fun e => decide (e.health.getD 1 > 0)),
    spawned := r.2.1 }

/-- The projectile advance-and-cull phase (src/App.tsx line 466):
`prev.map(p => ({...p, x: p.x + p.vx})).filter(p => p.x > cameraX && p.x < cameraX + WIDTH)`. -/
def projAdvancePhase (cam : ℚ) (ps : List Proj) : List Proj :=
  (ps.map (fun p => { p with x := p.x + p.vx })).filter
    (fun p => decide (p.x > cam) && decide (p.x < cam + 800))

/-- Result of the damage-resolution `setPlayer` phase. -/
structure DmgOut where
  player : Player
  projectiles : List Proj
  dLives : ℤ
  lose : Bool
deriving Repr

/-- The damage-resolution phase (src/App.tsx lines 469-499).  `snapEs` and
`snapPs` are the tick-start enemy/projectile snapshots the closure reads;
`pendPs` is the pending projectile list the queued removals act on. -/
def damagePhase (snapEs : List Enemy) (snapPs : List Proj) (livesSnap : ℤ)
    (p : Player) (pendPs : List Proj) : DmgOut :=
  if p.isInvincible then { player := p, projectiles := pendPs, dLives := 0, lose := false }
  else
    let prect := playerRect p
    let hitE : Bool := snapEs.any (fun en => checkCollision prect (enemyRect en))
    let hitP : Bool := snapPs.any
      (fun pr => decide (pr.owner = POwner.enemy) && checkCollision prect (projRect pr))
    let pend2 := snapPs.foldl
      (fun acc pr =>
        if decide (pr.owner = POwner.enemy) && checkCollision prect (projRect pr) then
          acc.filter (fun q => decide (q.id ≠ pr.id))
        else acc)
      pendPs
    if hitE || hitP then
      if p.hasShield then
        { player := { p with hasShield := false, isInvincible := true, invincibleTimer := 120 },
          projectiles := pend2, dLives := 0, lose := false }
      else
        { player := { p with
            x := 50, y := 450, vx := 0, vy := 0,
            isInvincible := true, invincibleTimer := 120 },
          projectiles := pend2, dLives := -1, lose := livesSnap - 1 ≤ 0 }
    else { player := p, projectiles := pend2, dLives := 0, lose := false }

/-- Health decrement `{...e, health: (e.health ?? 1) - 1}`. -/
def decHealth (e : Enemy) : Enemy := { e with health := some (e.health.getD 1 - 1) }

/-- One inner iteration of the projectile-vs-enemy loop for a fixed player
projectile `proj` and snapshot enemy `en`: on overlap, queue removal of the
projectile (filter by id) and a health decrement of that enemy (map by id). -/
def projHitStep (proj : Proj) (pend : List Proj × List Enemy) (en : Enemy) :
    List Proj × List Enemy :=
  if checkCollision (projRect proj) (enemyRect en) = true then
    (pend.1.filter (fun q => decide (q.id ≠ proj.id)),
     pend.2.map (fun e => if e.id = en.id then decHealth e else e))
  else pend

/-- The projectile-vs-enemy phase (src/App.tsx lines 502-512): for every
tick-start player projectile and every tick-start enemy it overlaps, queue a
removal of that projectile and a health decrement of that enemy.  `pend` is
the pending (projectiles, enemies) pair the queued updates act on. -/
def projEnemyPhase (snapPs : List Proj) (snapEs : List Enemy)
    (pend : List Proj × List Enemy) : List Proj × List Enemy :=
  snapPs.foldl
    (fun pend proj =>
      if proj.owner = POwner.player then snapEs.foldl (projHitStep proj) pend
      else pend)
    pend

/-- Result of the interactive-elements phase. -/
structure IntOut where
  player : Player
  level : List Ent
  dLives : ℤ
  won : Bool
deriving Repr

/-- One iteration of `updatedLevel.forEach` in the interactive-elements phase
(src/App.tsx lines 515-563).  All geometric guards read the incoming player
`p`; effects accumulate into the running state `st`. -/
def interactStep (inp : TickIn) (p : Player)
    (st : Player × List Ent × ℤ × Bool) (i : ℕ) : Player × List Ent × ℤ × Bool :=
  match st.2.1[i]? with
  | none => st
  | some ent =>
    match ent.type with
    | EType.powerUpBox =>
      if ent.hit = false ∧ p.vy < 0 ∧ checkCollision (playerHead p) (entRect ent) = true then
        let lvl2 := st.2.1.set i { ent with hit := true }
        match inp.rand ent.id with
        | PChoice.weapon => ({ st.1 with hasWeapon := true }, lvl2, st.2.2.1, st.2.2.2)
        | PChoice.shield => ({ st.1 with hasShield := true }, lvl2, st.2.2.1, st.2.2.2)
        | PChoice.invincibility =>
          ({ st.1 with isInvincible := true, invincibleTimer := 300 }, lvl2, st.2.2.1, st.2.2.2)
        | PChoice.life => (st.1, lvl2, st.2.2.1 + 1, st.2.2.2)
      else st
    | EType.console =>
      if inp.e = true ∧ checkCollision (playerRect p) (entRect ent) = true then
        match ent.linkedElementId with
        | none => st
        | some lid =>
          match st.2.1.findIdx? (fun f => decide (f.id = lid)) with
          | none => st
          | some j =>
            match st.2.1[j]? with
            | none => st
            | some f =>
              if f.type = EType.firewall then
                (st.1, st.2.1.set j { f with active := false }, st.2.2.1, st.2.2.2)
              else st
      else st
    | EType.log =>
      if ent.collected = false ∧ checkCollision (playerRect p) (entRect ent) = true then
        (st.1, st.2.1.set i { ent with collected := true }, st.2.2.1, st.2.2.2)
      else st
    | EType.goal =>
      if ent.active = true ∧ checkCollision (playerRect p) (entRect ent) = true then
        (st.1, st.2.1, st.2.2.1, true)
      else st
    | _ => st

/-- The interactive-elements phase (power-up boxes, consoles, logs, goal). -/
def interactPhase (inp : TickIn) (p : Player) (lvl : List Ent) : IntOut :=
  let r := (List.range lvl.length).foldl (interactStep inp p) (p, lvl, 0, false)
  { player := r.1, level := r.2.1, dLives := r.2.2.1, won := r.2.2.2 }

/-- In-place activation of the first goal entity:
`const goal = level.find(e => e.type === 'goal'); if (goal) goal.active = true;`. -/
def setFirstGoalActive : List Ent → List Ent
  | [] => []
  | ent :: rest =>
    if ent.type = EType.goal then { ent with active := true } :: rest
    else ent :: setFirstGoalActive rest

/-- Whether the registry still contains a boss-kind entity:
`enemies.some(e => e.type === 'The Adware King')`. -/
def hasKing (es : List Enemy) : Bool :=
  es.any (fun e => decide (e.type = EKind.adwareKing))

/-- The goal-activation check (src/App.tsx lines 569-572).  It reads the
tick-start `enemies` constant, not the pending enemy list. -/
def goalPhase (snapEs : List Enemy) (lvl : List Ent) : List Ent :=
  if hasKing snapEs then lvl else setFirstGoalActive lvl

/-- The camera update (src/App.tsx lines 584-588). -/
def camPhase (snapX cam : ℚ) : ℚ :=
  max 0 (min (4800 - 800) (cam + (snapX - 800 / 2 - cam) * (1/10)))

/-- The whole modelled game state of the first variant. -/
structure St where
  player : Player
  enemies : List Enemy
  level : List Ent
  projectiles : List Proj
  lives : ℤ
  cameraX : ℚ
  game : GState
deriving Repr

/-- One full tick of the first variant's `gameLoop`, phases in program
order; tick-start snapshot fields of `s` are passed to every closure read. -/
def tick (inp : TickIn) (s : St) : St :=
  let r1 := playerPhase1 inp s.level s.lives s.player
  let r2 := enemyPhase s.player.x s.level s.enemies inp.idSeed
  let ps3 := projAdvancePhase s.cameraX (s.projectiles ++ r2.spawned)
  let r4 := damagePhase s.enemies s.projectiles s.lives r1.player ps3
  let r5 := projEnemyPhase s.projectiles s.enemies (r4.projectiles, r2.enemies)
  let r6 := interactPhase inp r4.player s.level
  { player := r6.player,
    enemies := r5.2,
    level := goalPhase s.enemies r6.level,
    projectiles := r5.1,
    lives := s.lives + r1.dLives + r4.dLives + r6.dLives,
    cameraX := camPhase s.player.x s.cameraX,
    game := if r6.won then GState.win
            else if r1.lose || r4.lose then GState.lose
            else s.game }

/-- The frame callback: `if (gameState !== 'playing') return;`. -/
def step (inp : TickIn) (s : St) : St :=
  if s.game = GState.playing then tick inp s else s

/-- Whether some goal-typed entity is active. -/
def goalActive (lvl : List Ent) : Bool :=
  lvl.any (fun ent => decide (ent.type = EType.goal) && ent.active)

end VA

namespace VB

/-- Entity kinds of the second variant's collision passes.  The passes test
only `platform`, `firewall` and `powerupBox`; every other `GameObject` kind
is collapsed into `other`, which the passes skip exactly as the source
skips those kinds. -/
inductive BType
  | platform
  | firewall
  | powerupBox
  | other
deriving DecidableEq, Repr

/-- Power-up subtypes of the second variant. -/
inductive BSub
  | weapon
  | shield
  | invincibility
  | extraLife
deriving DecidableEq, Repr

/-- The collidable slice of the second variant's `GameObject`. -/
structure BEnt where
  id : ℕ
  type : BType
  x : ℚ
  y : ℚ
  width : ℚ
  height : ℚ
  hit : Bool := false
  subtype : Option BSub := none
deriving DecidableEq, Repr

/-- The second variant's `PlayerState` (it carries its own box size). -/
structure BPlayer where
  x : ℚ
  y : ℚ
  vx : ℚ
  vy : ℚ
  width : ℚ
  height : ℚ
  onGround : Bool
deriving DecidableEq, Repr

/-- Power-up effect flags of the second variant (React state hooks).  The
invincibility auto-off is a wall-clock `setTimeout`, modelled only as the
flag being set. -/
structure BEffects where
  hasShield : Bool
  hasWeapon : Bool
  isInvincible : Bool
  lives : ℤ
deriving DecidableEq, Repr

def bPlayerRect (p : BPlayer) : Rect := ⟨p.x, p.y, p.width, p.height⟩

def bEntRect (ent : BEnt) : Rect := ⟨ent.x, ent.y, ent.width, ent.height⟩

/-- The second variant's X-axis pass (src/App.tsx lines 981-995), with the
frame delta normalised to 1: advance `x` by `vx`, then for each collidable
entity the player overlaps (at the pre-move `y`), clamp `x` to the struck
edge and zero `vx`. -/
def stepXB (ents : List BEnt) (p : BPlayer) : BPlayer :=
  let p0 := { p with x := p.x + p.vx }
  ents.foldl
    (fun q ent =>
      if (ent.type = BType.platform ∨ ent.type = BType.firewall ∨ ent.type = BType.powerupBox) ∧
         checkCollision (bPlayerRect q) (bEntRect ent) = true then
        if q.vx > 0 then { q with x := ent.x - q.width, vx := 0 }
        else if q.vx < 0 then { q with x := ent.x + ent.width, vx := 0 }
        else { q with vx := 0 }
      else q)
    p0

/-- One iteration of the second variant's Y-axis pass loop
(src/App.tsx lines 1001-1038): platforms and power-up boxes clamp only when
the corresponding edge was crossed this tick (`y ± height ∓ vy` against the
entity edge); a power-up box struck from below fires its one-shot effect;
firewalls clamp on the bare sign of `vy`. -/
def stepYStepB (st : BPlayer × List BEnt × BEffects) (i : ℕ) :
    BPlayer × List BEnt × BEffects :=
  match st.2.1[i]? with
  | none => st
  | some ent =>
    let q := st.1
    if ent.type = BType.platform ∨ ent.type = BType.powerupBox then
      if checkCollision (bPlayerRect q) (bEntRect ent) = true then
        if q.vy > 0 ∧ q.y + q.height - q.vy ≤ ent.y then
          ({ q with y := ent.y - q.height, vy := 0, onGround := true }, st.2.1, st.2.2)
        else if q.vy < 0 ∧ q.y - q.vy ≥ ent.y + ent.height then
          let q2 := { q with y := ent.y + ent.height, vy := 0 }
          if ent.type = BType.powerupBox ∧ ent.hit = false then
            let lvl2 := st.2.1.set i { ent with hit := true }
            match ent.subtype with
            | some BSub.weapon => (q2, lvl2, { st.2.2 with hasWeapon := true })
            | some BSub.shield => (q2, lvl2, { st.2.2 with hasShield := true })
            | some BSub.invincibility => (q2, lvl2, { st.2.2 with isInvincible := true })
            | some BSub.extraLife => (q2, lvl2, { st.2.2 with lives := st.2.2.lives + 1 })
            | none => (q2, lvl2, st.2.2)
          else (q2, st.2.1, st.2.2)
        else st
      else st
    else if ent.type = BType.firewall then
      if checkCollision (bPlayerRect q) (bEntRect ent) = true then
        if q.vy > 0 then ({ q with y := ent.y - q.height, vy := 0, onGround := true }, st.2.1, st.2.2)
        else if q.vy < 0 then ({ q with y := ent.y + ent.height, vy := 0 }, st.2.1, st.2.2)
        else st
      else st
    else st

/-- The second variant's Y-axis pass: advance `y` by `vy`, clear `onGround`,
then run the per-entity loop. -/
def stepYB (ents : List BEnt) (p : BPlayer) (fx : BEffects) :
    BPlayer × List BEnt × BEffects :=
  let p0 := { p with y := p.y + p.vy, onGround := false }
  (List.range ents.length).foldl stepYStepB (p0, ents, fx)

/-- The second variant's collision resolution for one tick: the X pass runs
first, then the Y pass re-evaluates against the horizontally corrected
position. -/
def resolveB (ents : List BEnt) (p : BPlayer) (fx : BEffects) :
    BPlayer × List BEnt × BEffects :=
  stepYB ents (stepXB ents p) fx

/-- The second variant's camera update (src/App.tsx lines 1194-1197):
`LEVEL_WIDTH = 4600`, `GAME_WIDTH = 800`. -/
def camPhaseB (snapX cam : ℚ) : ℚ :=
  max 0 (min (cam + (snapX - 800 / 2 - cam) * (1/10)) (4600 - 800))

end VB

/-! ## Helper lemmas -/

theorem checkCollision_iff (a b : Rect) :
    checkCollision a b = true ↔
      a.x < b.x + b.width ∧ a.x + a.width > b.x ∧
      a.y < b.y + b.height ∧ a.y + a.height > b.y := by
  simp [checkCollision, and_assoc]

theorem checkCollision_eq_false_iff (a b : Rect) :
    checkCollision a b = false ↔
      b.x + b.width ≤ a.x ∨ a.x + a.width ≤ b.x ∨
      b.y + b.height ≤ a.y ∨ a.y + a.height ≤ b.y := by
  rw [Bool.eq_false_iff, Ne, checkCollision_iff]
  rw [not_and_or, not_and_or, not_and_or]
  simp [not_lt]

theorem decHealth_id (e : VA.Enemy) : (VA.decHealth e).id = e.id := rfl

/-- Setting an index of a list to the value already stored there is the
identity. -/
theorem list_set_getElem_self {α : Type} (l : List α) :
    ∀ (n : ℕ) (a : α), l[n]? = some a → l.set n a = l := by
  induction l with
  | nil =>
    intro n a h
    simp at h
  | cons x t ih =>
    intro n a h
    cases n with
    | zero =>
      simp only [List.getElem?_cons_zero, Option.some.injEq] at h
      simp [h]
    | succ m =>
      simp only [List.getElem?_cons_succ] at h
      simp [List.set, ih m a h]

/-- Writing `active := false` into an entity whose `active` flag is already
false changes nothing. -/
theorem ent_set_active_false_self (f : VA.Ent) (h : f.active = false) :
    ({ f with active := false } : VA.Ent) = f := by
  cases f
  simp_all

/-- Writing `hit := true` into an entity whose `hit` flag is already true
changes nothing. -/
theorem ent_set_hit_true_self (f : VA.Ent) (h : f.hit = true) :
    ({ f with hit := true } : VA.Ent) = f := by
  cases f
  simp_all

/-- Effect of the inner projectile-vs-enemy loop on the pending enemy list:
with pairwise distinct snapshot ids, every pending enemy whose id matches an
overlapping snapshot enemy is decremented exactly once. -/
theorem projHitStep_foldl_snd (pr : VA.Proj) (l : List VA.Enemy) :
    ∀ (q : List VA.Proj) (a : List VA.Enemy),
      (l.map (fun e => e.id)).Nodup →
      (l.foldl (VA.projHitStep pr) (q, a)).2 =
        a.map (fun x =>
          if l.any (fun en =>
              checkCollision (VA.projRect pr) (VA.enemyRect en) &&
              decide (x.id = en.id)) = true
          then VA.decHealth x else x) := by
  induction l with
  | nil =>
    intro q a _
    simp
  | cons en t ih =>
    intro q a hnd
    rw [List.map_cons, List.nodup_cons] at hnd
    obtain ⟨hni, hndt⟩ := hnd
    rw [List.foldl_cons]
    by_cases hov : checkCollision (VA.projRect pr) (VA.enemyRect en) = true
    · rw [show VA.projHitStep pr (q, a) en =
            (q.filter (fun x => decide (x.id ≠ pr.id)),
             a.map (fun e => if e.id = en.id then VA.decHealth e else e)) from by
          simp [VA.projHitStep, hov]]
      rw [ih _ _ hndt, List.map_map]
      apply List.map_congr_left
      intro x _
      by_cases hid : x.id = en.id
      · have hanyt : t.any (fun en2 =>
            checkCollision (VA.projRect pr) (VA.enemyRect en2) &&
            decide ((VA.decHealth x).id = en2.id)) = false := by
          rw [List.any_eq_false]
          intro en2 hen2
          simp only [Bool.and_eq_true, decide_eq_true_eq, decHealth_id, not_and]
          intro _ heq
          exact hni (List.mem_map.mpr ⟨en2, hen2, (hid ▸ heq).symm⟩)
        simp only [Function.comp_apply, if_pos hid, hanyt]
        have hhead : (List.any (en :: t) fun en2 =>
            checkCollision (VA.projRect pr) (VA.enemyRect en2) &&
            decide (x.id = en2.id)) = true := by
          rw [List.any_cons]
          simp [hov, hid]
        rw [hhead]
        simp
      · have : ((fun e => if e.id = en.id then VA.decHealth e else e) x) = x := by
          simp [hid]
        simp only [Function.comp_apply, this]
        rw [List.any_cons]
        simp [hid]
    · rw [show VA.projHitStep pr (q, a) en = (q, a) from by simp [VA.projHitStep, hov]]
      rw [ih _ _ hndt]
      apply List.map_congr_left
      intro x _
      rw [List.any_cons]
      simp [hov]

/-- Effect of the inner projectile-vs-enemy loop on the pending projectile
list: the projectile's id is filtered out as soon as it overlaps any
snapshot enemy. -/
theorem projHitStep_foldl_fst (pr : VA.Proj) (l : List VA.Enemy) :
    ∀ (q : List VA.Proj) (a : List VA.Enemy),
      (l.foldl (VA.projHitStep pr) (q, a)).1 =
        if l.any (fun en => checkCollision (VA.projRect pr) (VA.enemyRect en)) = true
        then q.filter (fun x => decide (x.id ≠ pr.id)) else q := by
  induction l with
  | nil =>
    intro q a
    simp
  | cons en t ih =>
    intro q a
    rw [List.foldl_cons]
    by_cases hov : checkCollision (VA.projRect pr) (VA.enemyRect en) = true
    · rw [show VA.projHitStep pr (q, a) en =
            (q.filter (fun x => decide (x.id ≠ pr.id)),
             a.map (fun e => if e.id = en.id then VA.decHealth e else e)) from by
          simp [VA.projHitStep, hov]]
      rw [ih]
      rw [List.any_cons]
      simp only [hov, Bool.true_or, if_pos]
      by_cases hany : (t.any fun en => checkCollision (VA.projRect pr) (VA.enemyRect en)) = true
      · rw [if_pos hany, List.filter_filter]
        apply List.filter_congr
        intro x _
        rw [Bool.and_self]
      · rw [if_neg hany]
    · rw [show VA.projHitStep pr (q, a) en = (q, a) from by simp [VA.projHitStep, hov]]
      rw [ih]
      rw [List.any_cons]
      simp [hov]

/-- A list's `any` is unchanged by a `set` that does not change the predicate
value at that index. -/
theorem any_set_congr {α : Type} (g : α → Bool) (l : List α) :
    ∀ (n : ℕ) (a b : α), l[n]? = some a → g a = g b →
      (l.set n b).any g = l.any g := by
  induction l with
  | nil =>
    intro n a b h _
    simp at h
  | cons x t ih =>
    intro n a b h hab
    cases n with
    | zero =>
      simp only [List.getElem?_cons_zero, Option.some.injEq] at h
      subst h
      simp [List.any_cons, hab]
    | succ m =>
      simp only [List.getElem?_cons_succ] at h
      simp [List.any_cons, List.set, ih m a b h hab]

/-- One interactive-elements iteration does not change the value of a level
predicate that is blind to the `hit` and `collected` flags and to the
`active` flag of firewalls. -/
theorem interactStep_level_any (g : VA.Ent → Bool)
    (h1 : ∀ e : VA.Ent, g { e with hit := true } = g e)
    (h2 : ∀ e : VA.Ent, g { e with collected := true } = g e)
    (h3 : ∀ e : VA.Ent, e.type = VA.EType.firewall → g { e with active := false } = g e)
    (inp : VA.TickIn) (p : VA.Player) (st : VA.Player × List VA.Ent × ℤ × Bool) (i : ℕ) :
    ((VA.interactStep inp p st i).2.1).any g = (st.2.1).any g := by
  cases hget : st.2.1[i]? with
  | none => simp [VA.interactStep, hget]
  | some ent =>
    cases hty : ent.type with
    | platform => simp [VA.interactStep, hget, hty]
    | firewall => simp [VA.interactStep, hget, hty]
    | goal =>
      by_cases hcnd : ent.active = true ∧ checkCollision (VA.playerRect p) (VA.entRect ent) = true
      · simp [VA.interactStep, hget, hty, hcnd]
      · simp [VA.interactStep, hget, hty, hcnd]
    | powerUpBox =>
      by_cases hcnd : ent.hit = false ∧ p.vy < 0 ∧
          checkCollision (VA.playerHead p) (VA.entRect ent) = true
      · have hset := any_set_congr g st.2.1 i ent { ent with hit := true } hget (h1 ent).symm
        rw [hty] at hset
        cases hr : inp.rand ent.id <;> simp [VA.interactStep, hget, hty, hcnd, hr, hset]
      · simp [VA.interactStep, hget, hty, hcnd]
    | log =>
      by_cases hcnd : ent.collected = false ∧
          checkCollision (VA.playerRect p) (VA.entRect ent) = true
      · have hset := any_set_congr g st.2.1 i ent { ent with collected := true } hget
          (h2 ent).symm
        rw [hty] at hset
        simp [VA.interactStep, hget, hty, hcnd, hset]
      · simp [VA.interactStep, hget, hty, hcnd]
    | console =>
      by_cases he : inp.e = true ∧ checkCollision (VA.playerRect p) (VA.entRect ent) = true
      · cases hlid : ent.linkedElementId with
        | none => simp [VA.interactStep, hget, hty, he, hlid]
        | some lid =>
          cases hij : st.2.1.findIdx? (fun f => decide (f.id = lid)) with
          | none => simp [VA.interactStep, hget, hty, he, hlid, hij]
          | some j =>
            cases hgj : st.2.1[j]? with
            | none => simp [VA.interactStep, hget, hty, he, hlid, hij, hgj]
            | some f =>
              by_cases hft : f.type = VA.EType.firewall
              · have hset := any_set_congr g st.2.1 j f { f with active := false } hgj
                  (h3 f hft).symm
                rw [hft] at hset
                simp [VA.interactStep, hget, hty, he, hlid, hij, hgj, hft, hset]
              · simp [VA.interactStep, hget, hty, he, hlid, hij, hgj, hft]
      · simp [VA.interactStep, hget, hty, he]

/-- The interactive-elements phase does not change such a level predicate. -/
theorem interactPhase_level_any (g : VA.Ent → Bool)
    (h1 : ∀ e : VA.Ent, g { e with hit := true } = g e)
    (h2 : ∀ e : VA.Ent, g { e with collected := true } = g e)
    (h3 : ∀ e : VA.Ent, e.type = VA.EType.firewall → g { e with active := false } = g e)
    (inp : VA.TickIn) (p : VA.Player) (lvl : List VA.Ent) :
    ((VA.interactPhase inp p lvl).level).any g = lvl.any g := by
  have main : ∀ (L : List ℕ) (st : VA.Player × List VA.Ent × ℤ × Bool),
      ((L.foldl (VA.interactStep inp p) st).2.1).any g = (st.2.1).any g := by
    intro L
    induction L with
    | nil => intro st; rfl
    | cons i t ih =>
      intro st
      rw [List.foldl_cons, ih, interactStep_level_any g h1 h2 h3 inp p st i]
  exact main (List.range lvl.length) (p, lvl, 0, false)

/-- Activating the first goal entity makes some goal active, provided a goal
entity exists. -/
theorem setFirstGoalActive_goalActive (lvl : List VA.Ent)
    (hex : lvl.any (fun e => decide (e.type = VA.EType.goal)) = true) :
    VA.goalActive (VA.setFirstGoalActive lvl) = true := by
  induction lvl with
  | nil => simp at hex
  | cons ent rest ih =>
    by_cases hg : ent.type = VA.EType.goal
    · simp [VA.setFirstGoalActive, hg, VA.goalActive]
    · have hg2 : decide (ent.type = VA.EType.goal) = false := by simp [hg]
      rw [List.any_cons, hg2, Bool.false_or] at hex
      rw [show VA.setFirstGoalActive (ent :: rest) = ent :: VA.setFirstGoalActive rest from by
        simp [VA.setFirstGoalActive, hg]]
      rw [VA.goalActive, List.any_cons, hg2]
      simp only [Bool.false_and, Bool.false_or]
      exact ih hex

/-- Activating the first goal entity preserves the existence of a goal
entity. -/
theorem setFirstGoalActive_exists (lvl : List VA.Ent) :
    (VA.setFirstGoalActive lvl).any (fun e => decide (e.type = VA.EType.goal)) =
      lvl.any (fun e => decide (e.type = VA.EType.goal)) := by
  induction lvl with
  | nil => rfl
  | cons ent rest ih =>
    by_cases hg : ent.type = VA.EType.goal
    · simp [VA.setFirstGoalActive, hg]
    · simp [VA.setFirstGoalActive, hg, List.any_cons, ih]

/-- Enemy movement/shooting preserves the enemy kind. -/
theorem enemyUpd_type (snapX : ℚ) (lvl : List VA.Ent) (e : VA.Enemy) (idA idB : ℕ) :
    (VA.enemyUpd snapX lvl e idA idB).1.type = e.type := by
  cases hty : e.type with
  | miniVirus => simp [VA.enemyUpd, hty]
  | spamBot => simp [VA.enemyUpd, hty]
  | adwareKing =>
    by_cases hgate : 4200 < snapX ∧ VA.wall999Active lvl = true <;>
      simp [VA.enemyUpd, hty, hgate]

/-- Every enemy in the output of the enemy phase has the kind of some input
enemy. -/
theorem enemyPhase_mem (snapX : ℚ) (lvl : List VA.Ent) (es : List VA.Enemy) (seed : ℕ) :
    ∀ x ∈ (VA.enemyPhase snapX lvl es seed).enemies, ∃ e ∈ es, x.type = e.type := by
  have main : ∀ (l : List VA.Enemy) (acc : List VA.Enemy × List VA.Proj × ℕ),
      ∀ x ∈ (l.foldl (fun (acc : List VA.Enemy × List VA.Proj × ℕ) e =>
          let u := VA.enemyUpd snapX lvl e acc.2.2 (acc.2.2 + 1)
          (acc.1 ++ [u.1], acc.2.1 ++ u.2, acc.2.2 + u.2.length)) acc).1,
        x ∈ acc.1 ∨ ∃ e ∈ l, x.type = e.type := by
    intro l
    induction l with
    | nil =>
      intro acc x hx
      exact Or.inl hx
    | cons e t ih =>
      intro acc x hx
      rw [List.foldl_cons] at hx
      rcases ih _ x hx with hin | ⟨e2, he2, hty⟩
      · rcases List.mem_append.mp hin with hin2 | hin2
        · exact Or.inl hin2
        · rw [List.mem_singleton] at hin2
          subst hin2
          exact Or.inr ⟨e, List.mem_cons_self e t, enemyUpd_type snapX lvl e _ _⟩
      · exact Or.inr ⟨e2, List.mem_cons_of_mem e he2, hty⟩
  intro x hx
  simp only [VA.enemyPhase, List.mem_filter] at hx
  rcases main es ([], [], seed) x hx.1 with hin | h
  · simp at hin
  · exact h

/-- The enemy phase cannot introduce a boss-kind entity. -/
theorem enemyPhase_hasKing (snapX : ℚ) (lvl : List VA.Ent) (es : List VA.Enemy)
    (seed : ℕ) (h : VA.hasKing es = false) :
    VA.hasKing (VA.enemyPhase snapX lvl es seed).enemies = false := by
  rw [VA.hasKing, List.any_eq_false]
  intro x hx
  simp only [decide_eq_true_eq]
  intro hk
  obtain ⟨e, he, hty⟩ := enemyPhase_mem snapX lvl es seed x hx
  rw [VA.hasKing, List.any_eq_false] at h
  exact h e he (by simp [← hty, hk])

/-- The projectile-vs-enemy phase preserves enemy kinds, hence boss
presence. -/
theorem projEnemyPhase_hasKing (snapPs : List VA.Proj) (snapEs : List VA.Enemy)
    (pend : List VA.Proj × List VA.Enemy) :
    VA.hasKing (VA.projEnemyPhase snapPs snapEs pend).2 = VA.hasKing pend.2 := by
  have inner : ∀ (pr : VA.Proj) (l : List VA.Enemy) (pend : List VA.Proj × List VA.Enemy),
      VA.hasKing ((l.foldl (VA.projHitStep pr) pend)).2 = VA.hasKing pend.2 := by
    intro pr l
    induction l with
    | nil => intro pend; rfl
    | cons en t ih =>
      intro pend
      rw [List.foldl_cons, ih]
      by_cases hov : checkCollision (VA.projRect pr) (VA.enemyRect en) = true
      · rw [show VA.projHitStep pr pend en =
              (pend.1.filter (fun q => decide (q.id ≠ pr.id)),
               pend.2.map (fun e => if e.id = en.id then VA.decHealth e else e)) from by
            simp [VA.projHitStep, hov]]
        rw [VA.hasKing, VA.hasKing, List.any_map]
        congr 1
        funext x
        by_cases hid : x.id = en.id <;> simp [Function.comp, hid, VA.decHealth]
      · rw [show VA.projHitStep pr pend en = pend from by simp [VA.projHitStep, hov]]
  have outer : ∀ (l : List VA.Proj) (pend : List VA.Proj × List VA.Enemy),
      VA.hasKing ((l.foldl (fun pend proj =>
        if proj.owner = VA.POwner.player then snapEs.foldl (VA.projHitStep proj) pend
        else pend) pend)).2 = VA.hasKing pend.2 := by
    intro l
    induction l with
    | nil => intro pend; rfl
    | cons pr t ih =>
      intro pend
      rw [List.foldl_cons, ih]
      by_cases hw : pr.owner = VA.POwner.player
      · rw [if_pos hw, inner]
      · rw [if_neg hw]
  exact outer snapPs pend

/-- The level list a tick produces, spelled out. -/
theorem tick_level_eq (inp : VA.TickIn) (s : VA.St) :
    (VA.tick inp s).level = VA.goalPhase s.enemies
      (VA.interactPhase inp (VA.damagePhase s.enemies s.projectiles s.lives
        (VA.playerPhase1 inp s.level s.lives s.player).player
        (VA.projAdvancePhase s.cameraX (s.projectiles ++
          (VA.enemyPhase s.player.x s.level s.enemies inp.idSeed).spawned))).player
        s.level).level := rfl

/-- After one tick, the goal is active exactly when it was already active or
the tick-start registry snapshot contained no boss (the goal check reads the
snapshot, not the post-removal registry). -/
theorem tick_goalActive (inp : VA.TickIn) (s : VA.St)
    (hex : s.level.any (fun e => decide (e.type = VA.EType.goal)) = true) :
    VA.goalActive (VA.tick inp s).level =
      (if VA.hasKing s.enemies = true then VA.goalActive s.level else true) := by
  rw [tick_level_eq, VA.goalPhase]
  by_cases hk : VA.hasKing s.enemies = true
  · rw [if_pos hk, if_pos hk]
    exact interactPhase_level_any
      (fun ent => decide (ent.type = VA.EType.goal) && ent.active)
      (fun e => rfl) (fun e => rfl) (fun e hft => by simp [hft]) inp _ s.level
  · rw [if_neg hk, if_neg hk]
    apply setFirstGoalActive_goalActive
    rw [interactPhase_level_any (fun ent => decide (ent.type = VA.EType.goal))
      (fun e => rfl) (fun e => rfl) (fun e _ => rfl) inp _ s.level]
    exact hex

/-- A tick preserves the existence of a goal entity. -/
theorem tick_goalExists (inp : VA.TickIn) (s : VA.St)
    (hex : s.level.any (fun e => decide (e.type = VA.EType.goal)) = true) :
    (VA.tick inp s).level.any (fun e => decide (e.type = VA.EType.goal)) = true := by
  rw [tick_level_eq, VA.goalPhase]
  by_cases hk : VA.hasKing s.enemies = true
  · rw [if_pos hk]
    rw [interactPhase_level_any (fun ent => decide (ent.type = VA.EType.goal))
      (fun e => rfl) (fun e => rfl) (fun e _ => rfl) inp _ s.level]
    exact hex
  · rw [if_neg hk, setFirstGoalActive_exists]
    rw [interactPhase_level_any (fun ent => decide (ent.type = VA.EType.goal))
      (fun e => rfl) (fun e => rfl) (fun e _ => rfl) inp _ s.level]
    exact hex

/-- A tick never introduces a boss-kind entity into the registry. -/
theorem tick_hasKing_mono (inp : VA.TickIn) (s : VA.St)
    (h : VA.hasKing s.enemies = false) :
    VA.hasKing (VA.tick inp s).enemies = false := by
  have henem : (VA.tick inp s).enemies = (VA.projEnemyPhase s.projectiles s.enemies
      ((VA.damagePhase s.enemies s.projectiles s.lives
        (VA.playerPhase1 inp s.level s.lives s.player).player
        (VA.projAdvancePhase s.cameraX (s.projectiles ++
          (VA.enemyPhase s.player.x s.level s.enemies inp.idSeed).spawned))).projectiles,
       (VA.enemyPhase s.player.x s.level s.enemies inp.idSeed).enemies)).2 := rfl
  rw [henem, projEnemyPhase_hasKing]
  exact enemyPhase_hasKing _ _ _ _ h

/-- The frame callback preserves the existence of a goal entity. -/
theorem step_goalExists (inp : VA.TickIn) (s : VA.St)
    (hex : s.level.any (fun e => decide (e.type = VA.EType.goal)) = true) :
    (VA.step inp s).level.any (fun e => decide (e.type = VA.EType.goal)) = true := by
  rw [VA.step]
  by_cases hp : s.game = VA.GState.playing
  · rw [if_pos hp]
    exact tick_goalExists inp s hex
  · rw [if_neg hp]
    exact hex

/-- The frame callback never introduces a boss-kind entity. -/
theorem step_hasKing_mono (inp : VA.TickIn) (s : VA.St)
    (h : VA.hasKing s.enemies = false) :
    VA.hasKing (VA.step inp s).enemies = false := by
  rw [VA.step]
  by_cases hp : s.game = VA.GState.playing
  · rw [if_pos hp]
    exact tick_hasKing_mono inp s h
  · rw [if_neg hp]
    exact h

/-- A fold of conditional id-filters only ever removes elements. -/
theorem removal_foldl_subset (cond : VA.Proj → Bool) (l : List VA.Proj) :
    ∀ (acc : List VA.Proj) (q : VA.Proj),
      q ∈ l.foldl (fun acc pr => if cond pr = true then
          acc.filter (fun x => decide (x.id ≠ pr.id)) else acc) acc → q ∈ acc := by
  induction l with
  | nil =>
    intro acc q hq
    simpa using hq
  | cons prh t ih =>
    intro acc q hq
    rw [List.foldl_cons] at hq
    have hsub := ih _ q hq
    by_cases hc : cond prh = true
    · rw [if_pos hc] at hsub
      exact (List.mem_filter.mp hsub).1
    · rwa [if_neg hc] at hsub

/-- A fold of conditional id-filters removes every element sharing an id
with a list member whose condition holds. -/
theorem removal_foldl_removes (cond : VA.Proj → Bool) (l : List VA.Proj) :
    ∀ (acc : List VA.Proj) (pr0 : VA.Proj), pr0 ∈ l → cond pr0 = true →
      ∀ q ∈ l.foldl (fun acc pr => if cond pr = true then
          acc.filter (fun x => decide (x.id ≠ pr.id)) else acc) acc, q.id ≠ pr0.id := by
  induction l with
  | nil =>
    intro acc pr0 h
    simp at h
  | cons prh t ih =>
    intro acc pr0 hmem hc q hq
    rw [List.foldl_cons] at hq
    rcases List.mem_cons.mp hmem with heq | htail
    · subst heq
      rw [if_pos hc] at hq
      have hsub := removal_foldl_subset cond t _ q hq
      simpa using (List.mem_filter.mp hsub).2
    · exact ih _ pr0 htail hc q hq

/-- In the second variant, a diagonal approach from above (previous box above
the platform, proposed box overlapping) leaves the X pass inactive (the
pre-move box does not meet the platform) and the Y pass lands on top. -/
theorem resolveB_corner_lands (p : VB.BPlayer) (e : VB.BEnt) (fx : VB.BEffects)
    (ht : e.type = VB.BType.platform)
    (hy : p.y + p.height ≤ e.y)
    (hov : checkCollision ⟨p.x + p.vx, p.y + p.vy, p.width, p.height⟩ (VB.bEntRect e) = true) :
    (VB.resolveB [e] p fx).1 =
      { p with x := p.x + p.vx, y := e.y - p.height, vy := 0, onGround := true } := by
  have hvy : p.vy > 0 := by
    rw [checkCollision_iff] at hov
    simp [VB.bEntRect] at hov
    linarith [hov.2.2.2]
  have hX : VB.stepXB [e] p = { p with x := p.x + p.vx } := by
    simp only [VB.stepXB, List.foldl_cons, List.foldl_nil]
    rw [if_neg]
    rintro ⟨-, hcc⟩
    rw [checkCollision_iff] at hcc
    simp [VB.bPlayerRect, VB.bEntRect] at hcc
    linarith [hcc.2.2.2]
  rw [VB.resolveB, hX]
  simp only [VB.stepYB, List.length_cons, List.length_nil, Nat.zero_add, List.range_succ,
    List.range_zero, List.nil_append, List.foldl_cons, List.foldl_nil, VB.stepYStepB,
    List.getElem?_cons_zero, VB.bPlayerRect, VB.bEntRect]
  simp only [VB.bEntRect] at hov
  rw [if_pos (Or.inl ht), if_pos hov, if_pos ⟨hvy, by linarith⟩]

/-- In the second variant, an approach from the side (previous box left of
the platform and vertically overlapping, moving right into it) is resolved
by the X pass (clamp to the left edge, zero vx), and the Y pass then finds
no overlap at the corrected position, so the vertical move is kept. -/
theorem resolveB_side_pushes (p : VB.BPlayer) (e : VB.BEnt) (fx : VB.BEffects)
    (ht : e.type = VB.BType.platform)
    (hx : p.x + p.width ≤ e.x)
    (hy1 : p.y < e.y + e.height) (hy2 : p.y + p.height > e.y)
    (hvx : p.vx > 0)
    (hov : checkCollision ⟨p.x + p.vx, p.y, p.width, p.height⟩ (VB.bEntRect e) = true) :
    (VB.resolveB [e] p fx).1 =
      { p with x := e.x - p.width, vx := 0, y := p.y + p.vy, onGround := false } := by
  have hX : VB.stepXB [e] p = { p with x := e.x - p.width, vx := 0 } := by
    simp only [VB.stepXB, List.foldl_cons, List.foldl_nil, VB.bPlayerRect, VB.bEntRect]
    simp only [VB.bEntRect] at hov
    rw [if_pos ⟨Or.inl ht, hov⟩, if_pos hvx]
  rw [VB.resolveB, hX]
  simp only [VB.stepYB, List.length_cons, List.length_nil, Nat.zero_add, List.range_succ,
    List.range_zero, List.nil_append, List.foldl_cons, List.foldl_nil, VB.stepYStepB,
    List.getElem?_cons_zero, VB.bPlayerRect, VB.bEntRect]
  rw [if_pos (Or.inl ht), if_neg]
  intro hcc
  simp [checkCollision_iff] at hcc

/-- In the first variant's if-else chain, a diagonal approach from above
takes the landing branch: the vertical axis is corrected and the horizontal
coordinate is left unchanged. -/
theorem resolveA_corner_lands (x y nX nY vy : ℚ) (e : VA.Ent)
    (ht : e.type = VA.EType.platform)
    (hy : y + 48 ≤ e.y)
    (hov : checkCollision ⟨nX, nY, 32, 48⟩ (VA.entRect e) = true) :
    VA.resolveLevel [e] x y nX nY vy = ⟨nX, e.y - 48, 0, true⟩ := by
  have h4 : nY + 48 > e.y := by
    rw [checkCollision_iff] at hov
    simpa [VA.entRect] using hov.2.2.2
  simp only [VA.resolveLevel, List.foldl_cons, List.foldl_nil, VA.resolveEntity]
  rw [if_neg (by simp [ht]), if_neg (by simp [ht]), if_pos hov, if_pos ⟨hy, h4⟩]

/-- In the first variant's if-else chain, an approach from the side (previous
box vertically overlapping and left of the entity) takes the horizontal
branch: the horizontal coordinate is clamped and the vertical move kept. -/
theorem resolveA_side_pushes (x y nX nY vy : ℚ) (e : VA.Ent)
    (ht : e.type = VA.EType.platform)
    (hx : x + 32 ≤ e.x)
    (hy1 : y < e.y + e.height) (hy2 : y + 48 > e.y)
    (hov : checkCollision ⟨nX, nY, 32, 48⟩ (VA.entRect e) = true) :
    VA.resolveLevel [e] x y nX nY vy = ⟨e.x - 32, nY, vy, false⟩ := by
  have h2 : nX + 32 > e.x := by
    rw [checkCollision_iff] at hov
    simpa [VA.entRect] using hov.2.1
  simp only [VA.resolveLevel, List.foldl_cons, List.foldl_nil, VA.resolveEntity]
  rw [if_neg (by simp [ht]), if_neg (by simp [ht]), if_pos hov,
    if_neg (by rintro ⟨h, -⟩; linarith), if_neg (by rintro ⟨h, -⟩; linarith),
    if_pos ⟨hx, h2⟩]

/-! ## Claim theorems -/

/-- C10: the AABB overlap test `checkCollision` uses strict inequalities, so
two boxes that merely touch along an edge (one box's far edge equal to the
other's near edge on either axis) are reported as not overlapping; since
every collision, damage and pickup trigger in the source goes through
`checkCollision`, edge contact alone never fires any of them. -/
theorem edge_contact_no_collision (a b : Rect)
    (h : a.x + a.width = b.x ∨ b.x + b.width = a.x ∨
         a.y + a.height = b.y ∨ b.y + b.height = a.y) :
    checkCollision a b = false := by
  rw [checkCollision_eq_false_iff]
  rcases h with h | h | h | h
  · right; left; linarith
  · left; linarith
  · right; right; right; linarith
  · right; right; left; linarith

/-- Witness for C10: two concrete boxes touching along a vertical edge. -/
theorem edge_contact_no_collision_witness :
    (0 : ℚ) + 10 = 10 ∧ checkCollision ⟨0, 0, 10, 10⟩ ⟨10, 3, 5, 5⟩ = false :=
  ⟨by norm_num, edge_contact_no_collision ⟨0, 0, 10, 10⟩ ⟨10, 3, 5, 5⟩ (Or.inl (by norm_num))⟩

/-- C3: after each tick's camera update the camera offset lies in
`[0, levelWidth − viewportWidth]`, for any previous offset and any player x
(both variants clamp with `Math.max(0, Math.min(levelWidth − viewportWidth, …))`). -/
theorem camera_offset_clamped (px prev : ℚ) :
    0 ≤ VA.camPhase px prev ∧ VA.camPhase px prev ≤ 4800 - 800 ∧
    0 ≤ VB.camPhaseB px prev ∧ VB.camPhaseB px prev ≤ 4600 - 800 := by
  refine ⟨le_max_left 0 _, ?_, le_max_left 0 _, ?_⟩
  · exact max_le (by norm_num) (min_le_left _ _)
  · exact max_le (by norm_num) (min_le_right _ _)

/-- C2: axis resolution order on simultaneous (diagonal) overlap.  The
second variant literally resolves the horizontal axis first (`stepXB`) and
then re-evaluates the vertical axis against the horizontally corrected
position (`stepYB`); the first variant's if-else chain produces the same
outcomes.  Concretely: on a diagonal approach from above both variants land
on top with the horizontal coordinate unchanged (no sideways ejection), and
on a side approach both clamp horizontally and then find no vertical
overlap at the corrected position. -/
theorem axis_order_resolution
    (pB : VB.BPlayer) (eB : VB.BEnt) (fB : VB.BEffects)
    (hB1 : eB.type = VB.BType.platform)
    (hB2 : pB.y + pB.height ≤ eB.y)
    (hB3 : checkCollision ⟨pB.x + pB.vx, pB.y + pB.vy, pB.width, pB.height⟩
             (VB.bEntRect eB) = true)
    (pC : VB.BPlayer) (eC : VB.BEnt) (fC : VB.BEffects)
    (hC1 : eC.type = VB.BType.platform)
    (hC2 : pC.x + pC.width ≤ eC.x)
    (hC3 : pC.y < eC.y + eC.height) (hC4 : pC.y + pC.height > eC.y)
    (hC5 : pC.vx > 0)
    (hC6 : checkCollision ⟨pC.x + pC.vx, pC.y, pC.width, pC.height⟩
             (VB.bEntRect eC) = true)
    (xA yA nXA nYA vyA : ℚ) (eA : VA.Ent)
    (hA1 : eA.type = VA.EType.platform)
    (hA2 : yA + 48 ≤ eA.y)
    (hA3 : checkCollision ⟨nXA, nYA, 32, 48⟩ (VA.entRect eA) = true)
    (xD yD nXD nYD vyD : ℚ) (eD : VA.Ent)
    (hD1 : eD.type = VA.EType.platform)
    (hD2 : xD + 32 ≤ eD.x)
    (hD3 : yD < eD.y + eD.height) (hD4 : yD + 48 > eD.y)
    (hD5 : checkCollision ⟨nXD, nYD, 32, 48⟩ (VA.entRect eD) = true) :
    (VB.resolveB [eB] pB fB).1 =
      { pB with x := pB.x + pB.vx, y := eB.y - pB.height, vy := 0, onGround := true } ∧
    (VB.resolveB [eC] pC fC).1 =
      { pC with x := eC.x - pC.width, vx := 0, y := pC.y + pC.vy, onGround := false } ∧
    VA.resolveLevel [eA] xA yA nXA nYA vyA = ⟨nXA, eA.y - 48, 0, true⟩ ∧
    VA.resolveLevel [eD] xD yD nXD nYD vyD = ⟨eD.x - 32, nYD, vyD, false⟩ :=
  ⟨resolveB_corner_lands pB eB fB hB1 hB2 hB3,
   resolveB_side_pushes pC eC fC hC1 hC2 hC3 hC4 hC5 hC6,
   resolveA_corner_lands xA yA nXA nYA vyA eA hA1 hA2 hA3,
   resolveA_side_pushes xD yD nXD nYD vyD eD hD1 hD2 hD3 hD4 hD5⟩

/-- Witness for C2 at concrete diagonal and side approaches. -/
theorem axis_order_resolution_witness :
    (VB.resolveB [{ id := 1, type := VB.BType.platform, x := 90, y := 170,
                    width := 200, height := 30 }]
        { x := 100, y := 100, vx := 4, vy := 30, width := 40, height := 60,
          onGround := false }
        { hasShield := false, hasWeapon := false, isInvincible := false, lives := 3 }).1 =
      { x := 104, y := 110, vx := 4, vy := 0, width := 40, height := 60,
        onGround := true } ∧
    (VB.resolveB [{ id := 2, type := VB.BType.platform, x := 142, y := 80,
                    width := 50, height := 200 }]
        { x := 100, y := 100, vx := 4, vy := 2, width := 40, height := 60,
          onGround := false }
        { hasShield := false, hasWeapon := false, isInvincible := false, lives := 3 }).1 =
      { x := 102, y := 102, vx := 0, vy := 2, width := 40, height := 60,
        onGround := false } ∧
    VA.resolveLevel [{ id := 3, type := VA.EType.platform, x := 90, y := 150,
                       width := 200, height := 30 }] 100 100 104 140 40 =
      ⟨104, 102, 0, true⟩ ∧
    VA.resolveLevel [{ id := 4, type := VA.EType.platform, x := 133, y := 80,
                       width := 50, height := 200 }] 100 100 104 102 2 =
      ⟨101, 102, 2, false⟩ := by
  have h := axis_order_resolution
    { x := 100, y := 100, vx := 4, vy := 30, width := 40, height := 60, onGround := false }
    { id := 1, type := VB.BType.platform, x := 90, y := 170, width := 200, height := 30 }
    { hasShield := false, hasWeapon := false, isInvincible := false, lives := 3 }
    rfl (by norm_num) (of_decide_eq_true (by with_unfolding_all rfl))
    { x := 100, y := 100, vx := 4, vy := 2, width := 40, height := 60, onGround := false }
    { id := 2, type := VB.BType.platform, x := 142, y := 80, width := 50, height := 200 }
    { hasShield := false, hasWeapon := false, isInvincible := false, lives := 3 }
    rfl (by norm_num) (by norm_num) (by norm_num) (by norm_num)
    (of_decide_eq_true (by with_unfolding_all rfl))
    100 100 104 140 40
    { id := 3, type := VA.EType.platform, x := 90, y := 150, width := 200, height := 30 }
    rfl (by norm_num) (of_decide_eq_true (by with_unfolding_all rfl))
    100 100 104 102 2
    { id := 4, type := VA.EType.platform, x := 133, y := 80, width := 50, height := 200 }
    rfl (by norm_num) (by norm_num) (by norm_num)
    (of_decide_eq_true (by with_unfolding_all rfl))
  refine ⟨?_, ?_, ?_, ?_⟩
  · rw [h.1]; norm_num
  · rw [h.2.1]; norm_num
  · rw [h.2.2.1]; norm_num
  · rw [h.2.2.2]; norm_num

/-- C1 counterexample: in the first variant's collision pass, a clamp
against a later entity can re-introduce overlap with an earlier entity.
With the player previously at (120, 140), falling with vy = 39.4, holding
right (proposed displacement (4, 40), within one player-box dimension
(32, 48)), and two platforms neither of which overlaps the previous box,
the pass lands the horizontal clamp against the second platform inside the
first one: after resolution the player box overlaps a collidable platform. -/
theorem resolver_multi_entity_overlap_cex :
    let p : VA.Player := { x := 120, y := 140, vx := 0, vy := 197/5, onGround := false,
                           direction := VA.Dir.right, hasWeapon := false, hasShield := false,
                           isInvincible := false, invincibleTimer := 0 }
    let e2 : VA.Ent := { id := 1, type := VA.EType.platform, x := 80, y := 200,
                         width := 44, height := 60 }
    let e3 : VA.Ent := { id := 2, type := VA.EType.platform, x := 155, y := 150,
                         width := 118, height := 250 }
    let inp : VA.TickIn := { left := false, right := true, up := false, e := false,
                             rand := fun _ => VA.PChoice.weapon, idSeed := 0 }
    let q := (VA.playerPhase1 inp [e2, e3] 3 p).player
    checkCollision (VA.playerRect p) (VA.entRect e2) = false ∧
    checkCollision (VA.playerRect p) (VA.entRect e3) = false ∧
    |(124 : ℚ) - p.x| ≤ 32 ∧ |(180 : ℚ) - p.y| ≤ 48 ∧
    checkCollision (VA.playerRect q) (VA.entRect e2) = true :=
  of_decide_eq_true (by with_unfolding_all rfl)

/-- C1 amended: when there is a single collidable entity, the collision pass
does guarantee separation: if the previous player box does not overlap the
entity, then after `resolveLevel` the corrected box does not overlap it
either (for every proposed displacement).  With two or more collidable
entities this fails, as the counterexample shows. -/
theorem resolver_single_entity_no_overlap
    (x y nX nY vy : ℚ) (ent : VA.Ent)
    (hcol : ent.type = VA.EType.platform ∨
            (ent.type = VA.EType.firewall ∧ ent.active = true))
    (hprev : checkCollision ⟨x, y, 32, 48⟩ (VA.entRect ent) = false) :
    checkCollision ⟨(VA.resolveLevel [ent] x y nX nY vy).newX,
                    (VA.resolveLevel [ent] x y nX nY vy).newY, 32, 48⟩
      (VA.entRect ent) = false := by
  have hne : ¬ (ent.type ≠ VA.EType.platform ∧ ent.type ≠ VA.EType.firewall) := by
    rcases hcol with h | ⟨h, _⟩ <;> simp [h]
  have hfw : ¬ (ent.type = VA.EType.firewall ∧ ent.active = false) := by
    rcases hcol with h | ⟨h, ha⟩
    · simp [h]
    · simp [h, ha]
  simp only [VA.resolveLevel, List.foldl_cons, List.foldl_nil, VA.resolveEntity,
    if_neg hne, if_neg hfw]
  by_cases hc : checkCollision ⟨nX, nY, 32, 48⟩ (VA.entRect ent) = true
  · rw [if_pos hc]
    rw [checkCollision_iff] at hc
    rw [checkCollision_eq_false_iff] at hprev
    simp [VA.entRect] at hc hprev
    split_ifs with h1 h2 h3 h4
    · rw [checkCollision_eq_false_iff]; right; right; right; simp [VA.entRect]
    · rw [checkCollision_eq_false_iff]; right; right; left; simp [VA.entRect]
    · rw [checkCollision_eq_false_iff]; right; left; simp [VA.entRect]
    · rw [checkCollision_eq_false_iff]; left; simp [VA.entRect]
    · exfalso
      rcases hprev with h | h | h | h
      · exact h4 ⟨by linarith, hc.1⟩
      · exact h3 ⟨h, hc.2.1⟩
      · exact h2 ⟨by linarith, hc.2.2.1⟩
      · exact h1 ⟨h, hc.2.2.2⟩
  · rw [if_neg hc]
    exact Bool.eq_false_iff.mpr hc

/-- Witness for the amended C1 theorem: a concrete fall onto a single
platform from above. -/
theorem resolver_single_entity_no_overlap_witness :
    checkCollision ⟨(VA.resolveLevel [{ id := 1, type := VA.EType.platform, x := 100, y := 500,
                                        width := 200, height := 50 }] 120 440 124 480 40).newX,
                    (VA.resolveLevel [{ id := 1, type := VA.EType.platform, x := 100, y := 500,
                                        width := 200, height := 50 }] 120 440 124 480 40).newY,
                    32, 48⟩
      (VA.entRect { id := 1, type := VA.EType.platform, x := 100, y := 500,
                    width := 200, height := 50 }) = false :=
  resolver_single_entity_no_overlap 120 440 124 480 40 _ (Or.inl rfl)
    (of_decide_eq_true (by with_unfolding_all rfl))

/-- C7 counterexample: the first variant culls projectiles against the
camera viewport, not the level bounds.  A projectile whose advanced
position 500 lies well inside [0, levelWidth] = [0, 4800] is nevertheless
despawned when the camera is at offset 1000, because 500 is outside the
viewport interval (1000, 1800). -/
theorem projectile_despawn_viewport_cex :
    VA.projAdvancePhase 1000
        [{ id := 1, x := 505, y := 300, vx := -5, owner := VA.POwner.player }] = [] ∧
    (0 : ℚ) ≤ 505 + (-5) ∧ (505 : ℚ) + (-5) ≤ 4800 :=
  of_decide_eq_true (by with_unfolding_all rfl)

/-- C7 amended: in the first variant each pending projectile advances by its
velocity and is kept if and only if its new x lies strictly inside the
camera viewport `(cameraX, cameraX + 800)`; the level bounds play no role. -/
theorem projectile_advance_characterization (cam : ℚ) (ps : List VA.Proj) (q : VA.Proj) :
    q ∈ VA.projAdvancePhase cam ps ↔
      (∃ p ∈ ps, q = { p with x := p.x + p.vx }) ∧ cam < q.x ∧ q.x < cam + 800 := by
  simp only [VA.projAdvancePhase, List.mem_filter, List.mem_map, Bool.and_eq_true,
    decide_eq_true_eq, gt_iff_lt]
  constructor
  · rintro ⟨⟨p, hp, rfl⟩, h1, h2⟩
    exact ⟨⟨p, hp, rfl⟩, h1, h2⟩
  · rintro ⟨⟨p, hp, rfl⟩, h1, h2⟩
    exact ⟨⟨p, hp, rfl⟩, h1, h2⟩

/-- C5 counterexample: hostile-entity health is decremented with no clamp.
Two player projectiles overlapping the same health-1 enemy in one tick
drive its health to −1 within the projectile-vs-enemy phase. -/
theorem enemy_health_negative_cex :
    let e : VA.Enemy := { id := 7, type := VA.EKind.miniVirus, x := 100, y := 100,
                          width := 32, height := 32, patrolStart := 0, patrolEnd := 0,
                          vx := 0, direction := VA.Dir.left, shootCooldown := 0,
                          health := some 1 }
    let p1 : VA.Proj := { id := 1, x := 105, y := 105, vx := 10, owner := VA.POwner.player }
    let p2 : VA.Proj := { id := 2, x := 105, y := 105, vx := 10, owner := VA.POwner.player }
    e.health = some 1 ∧
    (VA.projEnemyPhase [p1, p2] [e] ([p1, p2], [e])).2.map (fun x => x.health) =
      [some (-1)] :=
  of_decide_eq_true (by with_unfolding_all rfl)

/-- C5 amended: health is not clamped at 0 (it can transiently become −1
under two same-tick hits), but the enemy-update filter
`.filter(e => (e.health ?? 1) > 0)` guarantees that every entity in the
post-filter registry has strictly positive health. -/
theorem enemy_filter_positive_health (snapX : ℚ) (lvl : List VA.Ent)
    (es : List VA.Enemy) (seed : ℕ) (e : VA.Enemy)
    (he : e ∈ (VA.enemyPhase snapX lvl es seed).enemies) :
    0 < e.health.getD 1 := by
  simp only [VA.enemyPhase, List.mem_filter, decide_eq_true_eq] at he
  exact he.2

/-- Witness for the amended C5 theorem: a stationary patrol enemy with
health 2 survives the filter and indeed has positive health. -/
theorem enemy_filter_positive_health_witness :
    0 < (({ id := 3, type := VA.EKind.miniVirus, x := 100, y := 100, width := 32,
            height := 32, patrolStart := -100, patrolEnd := 1000, vx := 0,
            direction := VA.Dir.left, shootCooldown := 0,
            health := some 2 } : VA.Enemy).health.getD 1) :=
  enemy_filter_positive_health 0 []
    [{ id := 3, type := VA.EKind.miniVirus, x := 100, y := 100, width := 32,
       height := 32, patrolStart := -100, patrolEnd := 1000, vx := 0,
       direction := VA.Dir.left, shootCooldown := 0, health := some 2 }] 0 _
    (of_decide_eq_true (by with_unfolding_all rfl))

/-- C6 counterexample: one player projectile overlapping two distinct
enemies in the same tick decrements the health of both of them (the inner
loop has no early exit), so a projectile does not resolve at most one hit
per tick. -/
theorem projectile_hits_two_enemies_cex :
    let p : VA.Proj := { id := 1, x := 105, y := 105, vx := 10, owner := VA.POwner.player }
    let e1 : VA.Enemy := { id := 11, type := VA.EKind.miniVirus, x := 100, y := 100,
                           width := 32, height := 32, patrolStart := 0, patrolEnd := 0,
                           vx := 0, direction := VA.Dir.left, shootCooldown := 0,
                           health := some 5 }
    let e2 : VA.Enemy := { id := 12, type := VA.EKind.miniVirus, x := 108, y := 100,
                           width := 32, height := 32, patrolStart := 0, patrolEnd := 0,
                           vx := 0, direction := VA.Dir.left, shootCooldown := 0,
                           health := some 3 }
    checkCollision (VA.projRect p) (VA.enemyRect e1) = true ∧
    checkCollision (VA.projRect p) (VA.enemyRect e2) = true ∧
    (VA.projEnemyPhase [p] [e1, e2] ([p], [e1, e2])).2.map (fun x => x.health) =
      [some 4, some 2] ∧
    (VA.projEnemyPhase [p] [e1, e2] ([p], [e1, e2])).1 = [] :=
  of_decide_eq_true (by with_unfolding_all rfl)

/-- C6 amended: a player projectile is despawned once it overlaps any
hostile entity, but before that it decrements the health of EVERY hostile
entity it overlaps in that tick (assuming pairwise distinct enemy ids), not
at most one. -/
theorem projectile_hits_every_overlapping_enemy (p : VA.Proj) (es : List VA.Enemy)
    (hown : p.owner = VA.POwner.player)
    (hnd : (es.map (fun e => e.id)).Nodup) :
    (VA.projEnemyPhase [p] es ([p], es)).2 =
      es.map (fun e => if checkCollision (VA.projRect p) (VA.enemyRect e) = true
                       then VA.decHealth e else e) ∧
    (VA.projEnemyPhase [p] es ([p], es)).1 =
      (if (es.any fun e => checkCollision (VA.projRect p) (VA.enemyRect e)) = true
       then [] else [p]) := by
  have hun : VA.projEnemyPhase [p] es ([p], es) = es.foldl (VA.projHitStep p) ([p], es) := by
    simp [VA.projEnemyPhase, hown]
  constructor
  · rw [hun, projHitStep_foldl_snd p es _ _ hnd]
    apply List.map_congr_left
    intro x hx
    by_cases hc : checkCollision (VA.projRect p) (VA.enemyRect x) = true
    · rw [if_pos hc, if_pos]
      rw [List.any_eq_true]
      exact ⟨x, hx, by simp [hc]⟩
    · rw [if_neg hc, if_neg]
      intro hany
      rw [List.any_eq_true] at hany
      obtain ⟨en, hen, hb⟩ := hany
      rw [Bool.and_eq_true, decide_eq_true_eq] at hb
      have hxe : x = en := List.inj_on_of_nodup_map hnd hx hen hb.2
      rw [hxe] at hc
      exact hc hb.1
  · rw [hun, projHitStep_foldl_fst]
    by_cases hany : (es.any fun e => checkCollision (VA.projRect p) (VA.enemyRect e)) = true
    · rw [if_pos hany, if_pos hany]
      simp
    · rw [if_neg hany, if_neg hany]

/-- Witness for the amended C6 theorem at a concrete projectile and two
enemies, one overlapping and one not. -/
theorem projectile_hits_every_overlapping_enemy_witness :
    (VA.projEnemyPhase [{ id := 1, x := 105, y := 105, vx := 10, owner := VA.POwner.player }]
        [{ id := 11, type := VA.EKind.miniVirus, x := 100, y := 100, width := 32,
           height := 32, patrolStart := 0, patrolEnd := 0, vx := 0,
           direction := VA.Dir.left, shootCooldown := 0, health := some 5 },
         { id := 12, type := VA.EKind.miniVirus, x := 400, y := 100, width := 32,
           height := 32, patrolStart := 0, patrolEnd := 0, vx := 0,
           direction := VA.Dir.left, shootCooldown := 0, health := some 3 }]
        ([{ id := 1, x := 105, y := 105, vx := 10, owner := VA.POwner.player }],
         [{ id := 11, type := VA.EKind.miniVirus, x := 100, y := 100, width := 32,
            height := 32, patrolStart := 0, patrolEnd := 0, vx := 0,
            direction := VA.Dir.left, shootCooldown := 0, health := some 5 },
          { id := 12, type := VA.EKind.miniVirus, x := 400, y := 100, width := 32,
            height := 32, patrolStart := 0, patrolEnd := 0, vx := 0,
            direction := VA.Dir.left, shootCooldown := 0, health := some 3 }])).2 =
      [{ id := 11, type := VA.EKind.miniVirus, x := 100, y := 100, width := 32,
         height := 32, patrolStart := 0, patrolEnd := 0, vx := 0,
         direction := VA.Dir.left, shootCooldown := 0, health := some 5 },
       { id := 12, type := VA.EKind.miniVirus, x := 400, y := 100, width := 32,
         height := 32, patrolStart := 0, patrolEnd := 0, vx := 0,
         direction := VA.Dir.left, shootCooldown := 0, health := some 3 }].map
        (fun e => if checkCollision
                      (VA.projRect { id := 1, x := 105, y := 105, vx := 10,
                                     owner := VA.POwner.player })
                      (VA.enemyRect e) = true
                  then VA.decHealth e else e) := by
  have h := projectile_hits_every_overlapping_enemy
    { id := 1, x := 105, y := 105, vx := 10, owner := VA.POwner.player }
    [{ id := 11, type := VA.EKind.miniVirus, x := 100, y := 100, width := 32,
       height := 32, patrolStart := 0, patrolEnd := 0, vx := 0,
       direction := VA.Dir.left, shootCooldown := 0, health := some 5 },
     { id := 12, type := VA.EKind.miniVirus, x := 400, y := 100, width := 32,
       height := 32, patrolStart := 0, patrolEnd := 0, vx := 0,
       direction := VA.Dir.left, shootCooldown := 0, health := some 3 }]
    rfl (of_decide_eq_true (by with_unfolding_all rfl))
  exact h.1

/-- C9: when a hostile projectile overlaps a shielded, non-invincible
player, the damage phase consumes the shield (and grants the grace
invincibility window), leaves the lives count unchanged (`dLives = 0`, no
lose transition), does not reset the player's position (only the shield and
invincibility fields change), and removes that projectile from the pending
list. -/
theorem shielded_hit_consumes_shield (snapEs : List VA.Enemy) (snapPs : List VA.Proj)
    (livesSnap : ℤ) (p : VA.Player) (pendPs : List VA.Proj) (pr : VA.Proj)
    (hmem : pr ∈ snapPs) (hown : pr.owner = VA.POwner.enemy)
    (hov : checkCollision (VA.playerRect p) (VA.projRect pr) = true)
    (hsh : p.hasShield = true) (hinv : p.isInvincible = false) :
    (VA.damagePhase snapEs snapPs livesSnap p pendPs).player =
      { p with hasShield := false, isInvincible := true, invincibleTimer := 120 } ∧
    (VA.damagePhase snapEs snapPs livesSnap p pendPs).dLives = 0 ∧
    (VA.damagePhase snapEs snapPs livesSnap p pendPs).lose = false ∧
    ∀ q ∈ (VA.damagePhase snapEs snapPs livesSnap p pendPs).projectiles, q.id ≠ pr.id := by
  have hinv2 : ¬ (p.isInvincible = true) := by simp [hinv]
  have hhit : (snapEs.any (fun en => checkCollision (VA.playerRect p) (VA.enemyRect en)) ||
      snapPs.any (fun pr2 => decide (pr2.owner = VA.POwner.enemy) &&
        checkCollision (VA.playerRect p) (VA.projRect pr2))) = true := by
    rw [Bool.or_eq_true]
    right
    rw [List.any_eq_true]
    exact ⟨pr, hmem, by simp [hown, hov]⟩
  have hr : VA.damagePhase snapEs snapPs livesSnap p pendPs =
      { player := { p with hasShield := false, isInvincible := true, invincibleTimer := 120 },
        projectiles := snapPs.foldl (fun acc pr2 =>
          if (decide (pr2.owner = VA.POwner.enemy) &&
              checkCollision (VA.playerRect p) (VA.projRect pr2)) = true then
            acc.filter (fun q => decide (q.id ≠ pr2.id)) else acc) pendPs,
        dLives := 0, lose := false } := by
    simp only [VA.damagePhase, if_neg hinv2, hhit, if_pos hsh]
    simp [hsh]
  refine ⟨by rw [hr], by rw [hr], by rw [hr], ?_⟩
  rw [hr]
  intro q hq
  exact removal_foldl_removes
    (fun pr2 => decide (pr2.owner = VA.POwner.enemy) &&
      checkCollision (VA.playerRect p) (VA.projRect pr2))
    snapPs pendPs pr hmem (by simp [hown, hov]) q hq

/-- Witness for C9 at a concrete shielded player and hostile projectile. -/
theorem shielded_hit_consumes_shield_witness :
    (VA.damagePhase []
        [{ id := 9, x := 105, y := 105, vx := -5, owner := VA.POwner.enemy }] 3
        { x := 100, y := 100, vx := 0, vy := 0, onGround := true,
          direction := VA.Dir.right, hasWeapon := false, hasShield := true,
          isInvincible := false, invincibleTimer := 0 }
        [{ id := 9, x := 105, y := 105, vx := -5, owner := VA.POwner.enemy }]).player =
      { x := 100, y := 100, vx := 0, vy := 0, onGround := true,
        direction := VA.Dir.right, hasWeapon := false, hasShield := false,
        isInvincible := true, invincibleTimer := 120 } ∧
    (VA.damagePhase []
        [{ id := 9, x := 105, y := 105, vx := -5, owner := VA.POwner.enemy }] 3
        { x := 100, y := 100, vx := 0, vy := 0, onGround := true,
          direction := VA.Dir.right, hasWeapon := false, hasShield := true,
          isInvincible := false, invincibleTimer := 0 }
        [{ id := 9, x := 105, y := 105, vx := -5, owner := VA.POwner.enemy }]).dLives = 0 := by
  have h := shielded_hit_consumes_shield []
    [{ id := 9, x := 105, y := 105, vx := -5, owner := VA.POwner.enemy }] 3
    { x := 100, y := 100, vx := 0, vy := 0, onGround := true,
      direction := VA.Dir.right, hasWeapon := false, hasShield := true,
      isInvincible := false, invincibleTimer := 0 }
    [{ id := 9, x := 105, y := 105, vx := -5, owner := VA.POwner.enemy }]
    { id := 9, x := 105, y := 105, vx := -5, owner := VA.POwner.enemy }
    (List.mem_singleton.mpr rfl) rfl
    (of_decide_eq_true (by with_unfolding_all rfl)) rfl rfl
  exact ⟨h.1, h.2.1⟩

/-- C8: idempotence of one-shot triggers.  In a level where every power-up
box has already been hit, every log has already been collected, and every
firewall a console links to has already been deactivated, running the
interactive-elements phase again (with any input, including the interact
action held while overlapping) changes neither the player, nor the level
registry, nor the lives count.  (The only thing the phase may still do is
raise the win flag when the player overlaps an active goal, which is not a
one-shot trigger of this claim.) -/
theorem one_shot_triggers_idempotent (inp : VA.TickIn) (p : VA.Player) (lvl : List VA.Ent)
    (hbox : ∀ ent ∈ lvl, ent.type = VA.EType.powerUpBox → ent.hit = true)
    (hlog : ∀ ent ∈ lvl, ent.type = VA.EType.log → ent.collected = true)
    (hcon : ∀ ent ∈ lvl, ent.type = VA.EType.console → ∀ lid, ent.linkedElementId = some lid →
      ∀ f ∈ lvl, f.id = lid → f.type = VA.EType.firewall → f.active = false) :
    (VA.interactPhase inp p lvl).player = p ∧
    (VA.interactPhase inp p lvl).level = lvl ∧
    (VA.interactPhase inp p lvl).dLives = 0 := by
  have key : ∀ (i : ℕ) (w : Bool),
      ∃ w2, VA.interactStep inp p (p, lvl, 0, w) i = (p, lvl, 0, w2) := by
    intro i w
    cases hget : lvl[i]? with
    | none => exact ⟨w, by simp [VA.interactStep, hget]⟩
    | some ent =>
      have hment : ent ∈ lvl := List.getElem?_mem hget
      cases hty : ent.type with
      | platform => exact ⟨w, by simp [VA.interactStep, hget, hty]⟩
      | firewall => exact ⟨w, by simp [VA.interactStep, hget, hty]⟩
      | powerUpBox =>
        refine ⟨w, ?_⟩
        have hhit := hbox ent hment hty
        simp [VA.interactStep, hget, hty, hhit]
      | log =>
        refine ⟨w, ?_⟩
        have hcoll := hlog ent hment hty
        simp [VA.interactStep, hget, hty, hcoll]
      | goal =>
        by_cases hcnd : ent.active = true ∧ checkCollision (VA.playerRect p) (VA.entRect ent) = true
        · exact ⟨true, by simp [VA.interactStep, hget, hty, hcnd]⟩
        · exact ⟨w, by simp [VA.interactStep, hget, hty, hcnd]⟩
      | console =>
        refine ⟨w, ?_⟩
        by_cases he : inp.e = true ∧ checkCollision (VA.playerRect p) (VA.entRect ent) = true
        · cases hlid : ent.linkedElementId with
          | none => simp [VA.interactStep, hget, hty, he, hlid]
          | some lid =>
            cases hij : lvl.findIdx? (fun f => decide (f.id = lid)) with
            | none => simp [VA.interactStep, hget, hty, he, hlid, hij]
            | some j =>
              cases hgj : lvl[j]? with
              | none => simp [VA.interactStep, hget, hty, he, hlid, hij, hgj]
              | some f =>
                have hpf := List.findIdx?_of_eq_some hij
                simp only [hgj, decide_eq_true_eq] at hpf
                have hfmem : f ∈ lvl := List.getElem?_mem hgj
                by_cases hft : f.type = VA.EType.firewall
                · have hact := hcon ent hment hty lid hlid f hfmem hpf hft
                  simp [VA.interactStep, hget, hty, he, hlid, hij, hgj, hft]
                  have heq : ({ id := f.id, type := VA.EType.firewall, x := f.x,
                                y := f.y, width := f.width, height := f.height,
                                hit := f.hit, linkedElementId := f.linkedElementId,
                                active := false,
                                collected := f.collected } : VA.Ent) = f := by
                    rw [← hft]
                    exact ent_set_active_false_self f hact
                  rw [heq, list_set_getElem_self lvl j f hgj]
                · simp [VA.interactStep, hget, hty, he, hlid, hij, hgj, hft]
        · simp [VA.interactStep, hget, hty, he]
  have main : ∀ (L : List ℕ) (w : Bool),
      ∃ w2, L.foldl (VA.interactStep inp p) (p, lvl, 0, w) = (p, lvl, 0, w2) := by
    intro L
    induction L with
    | nil => intro w; exact ⟨w, rfl⟩
    | cons i t ih =>
      intro w
      rw [List.foldl_cons]
      obtain ⟨w2, hw2⟩ := key i w
      rw [hw2]
      exact ih w2
  obtain ⟨w2, hw2⟩ := main (List.range lvl.length) false
  exact ⟨by simp [VA.interactPhase, hw2], by simp [VA.interactPhase, hw2],
    by simp [VA.interactPhase, hw2]⟩

/-- Witness for C8: a player holding the interact key on an already-used
console (linked firewall already inactive), with an already-hit power-up
box and an already-collected log in the level. -/
theorem one_shot_triggers_idempotent_witness :
    (VA.interactPhase
        { left := false, right := false, up := false, e := true,
          rand := fun _ => VA.PChoice.weapon, idSeed := 0 }
        { x := 1950, y := 510, vx := 0, vy := 0, onGround := true,
          direction := VA.Dir.right, hasWeapon := true, hasShield := false,
          isInvincible := false, invincibleTimer := 0 }
        [{ id := 4, type := VA.EType.powerUpBox, x := 700, y := 350, width := 40,
           height := 40, hit := true },
         { id := 101, type := VA.EType.log, x := 1950, y := 518, width := 32,
           height := 32, collected := true },
         { id := 12, type := VA.EType.console, x := 1950, y := 510, width := 40,
           height := 40, linkedElementId := some 10 },
         { id := 10, type := VA.EType.firewall, x := 2100, y := 400, width := 20,
           height := 150, active := false }]).level =
      [{ id := 4, type := VA.EType.powerUpBox, x := 700, y := 350, width := 40,
         height := 40, hit := true },
       { id := 101, type := VA.EType.log, x := 1950, y := 518, width := 32,
         height := 32, collected := true },
       { id := 12, type := VA.EType.console, x := 1950, y := 510, width := 40,
         height := 40, linkedElementId := some 10 },
       { id := 10, type := VA.EType.firewall, x := 2100, y := 400, width := 20,
         height := 150, active := false }] := by
  have h := one_shot_triggers_idempotent
    { left := false, right := false, up := false, e := true,
      rand := fun _ => VA.PChoice.weapon, idSeed := 0 }
    { x := 1950, y := 510, vx := 0, vy := 0, onGround := true,
      direction := VA.Dir.right, hasWeapon := true, hasShield := false,
      isInvincible := false, invincibleTimer := 0 }
    [{ id := 4, type := VA.EType.powerUpBox, x := 700, y := 350, width := 40,
       height := 40, hit := true },
     { id := 101, type := VA.EType.log, x := 1950, y := 518, width := 32,
       height := 32, collected := true },
     { id := 12, type := VA.EType.console, x := 1950, y := 510, width := 40,
       height := 40, linkedElementId := some 10 },
     { id := 10, type := VA.EType.firewall, x := 2100, y := 400, width := 20,
       height := 150, active := false }]
    (of_decide_eq_true (by with_unfolding_all rfl))
    (of_decide_eq_true (by with_unfolding_all rfl))
    (of_decide_eq_true (by with_unfolding_all rfl))
  exact h.2.1

/-- C4 counterexample: the goal does NOT become active at the tick in which
the last boss-kind entity is removed.  Starting from a state whose registry
still holds the Adware King at health 0 (and an inactive goal), the next
tick removes the boss via the enemy-phase health filter, yet the goal stays
inactive, because the goal check at the end of the loop reads the `enemies`
constant captured at the start of the tick, in which the boss is still
present. -/
theorem goal_not_active_at_removal_tick_cex :
    let c : VA.TickIn := { left := false, right := false, up := false, e := false,
                           rand := fun _ => VA.PChoice.weapon, idSeed := 0 }
    let s0 : VA.St := { player := { x := 50, y := 450, vx := 0, vy := 0, onGround := false,
                                    direction := VA.Dir.right, hasWeapon := false,
                                    hasShield := false, isInvincible := false,
                                    invincibleTimer := 0 },
                        enemies := [{ id := 6, type := VA.EKind.adwareKing, x := 4500,
                                      y := 300, width := 80, height := 100,
                                      patrolStart := 200, patrolEnd := 450, vx := 0,
                                      direction := VA.Dir.down, shootCooldown := 90,
                                      health := some 0 }],
                        level := [{ id := 25, type := VA.EType.goal, x := 4750, y := 500,
                                    width := 50, height := 50, active := false }],
                        projectiles := [], lives := 3, cameraX := 0,
                        game := VA.GState.playing }
    VA.hasKing s0.enemies = true ∧
    VA.hasKing (VA.step c s0).enemies = false ∧
    VA.goalActive s0.level = false ∧
    VA.goalActive (VA.step c s0).level = false :=
  of_decide_eq_true (by with_unfolding_all rfl)

/-- C4 amended: along any playing trajectory that starts with an inactive
goal, the goal's active flag after tick `n + 1` equals the absence of
boss-kind entities in the registry BEFORE that tick — i.e. the flag flips
exactly one tick after the last boss-kind entity is removed, and never
before. -/
theorem goal_active_one_tick_after_removal
    (inp : ℕ → VA.TickIn) (traj : ℕ → VA.St)
    (hstep : ∀ k, traj (k + 1) = VA.step (inp k) (traj k))
    (h0 : VA.goalActive (traj 0).level = false)
    (hex0 : (traj 0).level.any (fun e => decide (e.type = VA.EType.goal)) = true)
    (n : ℕ) (hplay : ∀ k, k ≤ n → (traj k).game = VA.GState.playing) :
    VA.goalActive (traj (n + 1)).level = !(VA.hasKing (traj n).enemies) := by
  have hex : ∀ k, (traj k).level.any (fun e => decide (e.type = VA.EType.goal)) = true := by
    intro k
    induction k with
    | zero => exact hex0
    | succ m ih =>
      rw [hstep m]
      exact step_goalExists (inp m) (traj m) ih
  revert hplay
  induction n with
  | zero =>
    intro hplay
    rw [hstep 0, VA.step, if_pos (hplay 0 (Nat.le_refl 0))]
    rw [tick_goalActive (inp 0) (traj 0) (hex 0)]
    cases hk : VA.hasKing (traj 0).enemies
    · simp [hk]
    · simp [hk, h0]
  | succ m ih =>
    intro hplay
    have ihm := ih (fun k hk2 => hplay k (Nat.le_succ_of_le hk2))
    rw [hstep (m + 1), VA.step, if_pos (hplay (m + 1) (Nat.le_refl _))]
    rw [tick_goalActive (inp (m + 1)) (traj (m + 1)) (hex (m + 1))]
    cases hk : VA.hasKing (traj (m + 1)).enemies
    · simp [hk]
    · have hkm : VA.hasKing (traj m).enemies = true := by
        by_contra hc
        have hfalse : VA.hasKing (traj m).enemies = false := by
          cases h2 : VA.hasKing (traj m).enemies
          · rfl
          · exact absurd h2 hc
        have hmono := step_hasKing_mono (inp m) (traj m) hfalse
        rw [← hstep m] at hmono
        rw [hmono] at hk
        cases hk
      rw [ihm, hkm]
      simp

/-- Witness for the amended C4 theorem: a one-tick trajectory from a state
holding a health-0 boss; the goal is still inactive after the removal tick
(the boss was present at the tick's start). -/
theorem goal_active_one_tick_after_removal_witness :
    let c : VA.TickIn := { left := false, right := false, up := false, e := false,
                           rand := fun _ => VA.PChoice.weapon, idSeed := 0 }
    let s0 : VA.St := { player := { x := 50, y := 450, vx := 0, vy := 0, onGround := false,
                                    direction := VA.Dir.right, hasWeapon := false,
                                    hasShield := false, isInvincible := false,
                                    invincibleTimer := 0 },
                        enemies := [{ id := 6, type := VA.EKind.adwareKing, x := 4500,
                                      y := 300, width := 80, height := 100,
                                      patrolStart := 200, patrolEnd := 450, vx := 0,
                                      direction := VA.Dir.down, shootCooldown := 91,
                                      health := some 0 }],
                        level := [{ id := 25, type := VA.EType.goal, x := 4750, y := 500,
                                    width := 50, height := 50, active := false }],
                        projectiles := [], lives := 3, cameraX := 0,
                        game := VA.GState.playing }
    VA.goalActive ((VA.step c)^[0 + 1] s0).level =
      !(VA.hasKing ((VA.step c)^[0] s0).enemies) := by
  intro c s0
  exact goal_active_one_tick_after_removal (fun _ => c) (fun k => (VA.step c)^[k] s0)
    (fun k => Function.iterate_succ_apply' (VA.step c) k s0)
    (of_decide_eq_true (by with_unfolding_all rfl))
    (of_decide_eq_true (by with_unfolding_all rfl))
    0 (fun k hk => by rw [Nat.le_zero.mp hk]; rfl)

end CyberDefense
